import Mathlib

/-!
Shallow embedding of the reconciliation core of kube-arangodb, covering:

* the agency cache (`pkg/deployment/agency`: `cache.go`, `config.go`, and the
  agent-set file), with leader discovery, health computation and the
  commit-index guarded reload;
* the resource inspector refresh (`pkg/deployment/resources/inspector/inspector.go`);
* action timeout resolution (`pkg/deployment/reconcile/action_timeouts.go`);
* the `RuntimeContainerImageUpdate` action's `Start`
  (`action_runtime_container_image_update.go`);
* the authentication-wrapping connection (`conn` package, `authenticate.Do`).

Go maps are embedded as association lists (iteration order fixed by the list),
mutexed in-place mutation as explicit state passing, `error` values as
`Option String` / `Except String`, and outbound calls (state fetch, pod update,
HTTP round trips) as oracle parameters so the number and arguments of
side-effecting calls are visible in the result.
-/

/-- Errors are represented by their message strings. -/
abbrev Err := String

/-- Connection identity: distinguishes concrete connections. `Option Conn`
models a possibly-nil `driver.Connection`, with `none` as Go `nil`. -/
abbrev Conn := Nat

/-- `agencyConfig` (config.go): the decoded response of
`GET /_api/agency/config`. -/
structure AgencyConfig where
  leaderId : Option String
  commitIndex : Nat
  configurationId : String
  active : List String
deriving Repr, DecidableEq

/-- `agencyConfigResult` (config.go): per-agent poll outcome. -/
structure AgencyConfigResult where
  config : Option AgencyConfig
  err : Option Err
  conn : Option Conn
deriving Repr, DecidableEq

/-- `agencyConfigResults` (config.go): map from agent id to its poll result,
embedded as an association list. -/
abbrev AgencyConfigResults := List (String × AgencyConfigResult)

/-- Map lookup on the poll results (Go `r[k]`). -/
def lookupResult (r : AgencyConfigResults) (k : String) : Option AgencyConfigResult :=
  (r.find? (fun p => p.1 == k)).map Prod.snd

/-- `agentSetResult` (agent-set file): the retained leader observation. -/
structure AgentSetResult where
  id : String
  result : AgencyConfig
  conn : Option Conn
deriving Repr, DecidableEq

/-- The health map built by `agentSet.refresh` only ever stores `true`, so it
is embedded as the list of ids marked healthy (map lookup = membership). -/
abbrev Health := List String

/-- The state left in the `agentSet` by one `refresh` call: the returned error,
the stored leader result and the stored health map (the deferred writes of
`a.result` and `a.health`). -/
structure RefreshOut where
  err : Option Err
  result : Option AgentSetResult
  health : Health
deriving Repr, DecidableEq

/-- The leader-scan loop of `agentSet.refresh`: the first response with no
error, a non-nil config and a non-nil `LeaderId` yields that `LeaderId`
(the Go loop does `break` on the first hit). -/
def findLeader : AgencyConfigResults → Option String
  | [] => none
  | (_, v) :: rest =>
    if v.err.isSome then findLeader rest
    else
      match v.config with
      | none => findLeader rest
      | some cfg =>
        match cfg.leaderId with
        | some l => some l
        | none => findLeader rest

/-- Whether agent `z` responded without error (the condition under which the
active-list loop of `refresh` marks `z` healthy). -/
def respondedOk (r : AgencyConfigResults) (z : String) : Bool :=
  match lookupResult r z with
  | some q => q.err.isNone
  | none => false

/-- The health map built on the success path of `refresh`: the leader, plus
every id in the leader's active list that responded without error. -/
def healthOf (r : AgencyConfigResults) (cfg : AgencyConfig) (leader : String) : Health :=
  leader :: cfg.active.filter (fun z => respondedOk r z)

/-- `agentSet.refresh`: find a leader id among the responses, require the
leader's own response to be present, error-free and carry a config, then store
the health map and a result built from the leader's id and config only (the
`conn` field of `agentSetResult` is left at its zero value, i.e. nil).
On every error path the deferred writes store `result = nil` and the
health map as built so far (still empty). -/
def agentSet.refresh (r : AgencyConfigResults) : RefreshOut :=
  match findLeader r with
  | none => { err := some "NoLeader in Agency", result := none, health := [] }
  | some leader =>
    match lookupResult r leader with
    | none => { err := some "Leader not in result list", result := none, health := [] }
    | some res =>
      match res.err with
      | some _ =>
        { err := some "Error while fetching from agency", result := none, health := [] }
      | none =>
        match res.config with
        | none => { err := some "Config result is missing", result := none, health := [] }
        | some cfg =>
          { err := none
            result := some { id := leader, result := cfg, conn := none }
            health := healthOf r cfg leader }

/-- `agentSet.Leader`: returns `(id, commitIndex, conn)` of the stored result
when one is present (`ok = isSome`). -/
def agentSet.Leader (result : Option AgentSetResult) : Option (String × Nat × Option Conn) :=
  result.map (fun z => (z.id, z.result.commitIndex, z.conn))

/-- The `cache` struct of cache.go (the fields guarded by its mutex), without
the embedded agent set. It is polymorphic in the agency `State` payload `σ`,
which `Reload` never inspects. `Data()` returns `(data, valid)`. -/
structure AgencyCache (σ : Type) where
  valid : Bool
  commitIndex : Nat
  data : σ
deriving Repr, DecidableEq

/-- Everything observable about one `cache.Reload` call: the returned
`(uint64, error)` pair, the cache state after the call, the agent-set state
after the embedded `refresh`, and whether `loadState` was called and with
which connection (`none` = no body fetch). -/
structure ReloadOut (σ : Type) where
  retIndex : Nat
  retErr : Option Err
  cache : AgencyCache σ
  set : RefreshOut
  fetchedWith : Option (Option Conn)
deriving Repr, DecidableEq

/-- `cache.Reload` (cache.go): refresh the agent set; on refresh error return
`(0, err)` leaving the cache untouched; otherwise read the leader observation;
if its commit index equals the cached one and the cache is valid, return the
index with no body fetch; otherwise call `loadState` on the leader connection,
marking the cache invalid on fetch error and swapping in the fetched data,
validity and index on success. `loadState` is an oracle parameter standing for
the body fetch. -/
def cache.Reload {σ : Type} (c : AgencyCache σ) (responses : AgencyConfigResults)
    (loadState : Option Conn → Except Err σ) : ReloadOut σ :=
  let s := agentSet.refresh responses
  match s.err with
  | some e => { retIndex := 0, retErr := some e, cache := c, set := s, fetchedWith := none }
  | none =>
    match agentSet.Leader s.result with
    | none =>
      { retIndex := 0, retErr := some "Set did not refresh properly", cache := c, set := s
        fetchedWith := none }
    | some (_, commitIndex, conn) =>
      if commitIndex = c.commitIndex ∧ c.valid = true then
        { retIndex := commitIndex, retErr := none, cache := c, set := s, fetchedWith := none }
      else
        match loadState conn with
        | .error e =>
          { retIndex := commitIndex, retErr := some e, cache := { c with valid := false }
            set := s, fetchedWith := some conn }
        | .ok data =>
          { retIndex := commitIndex, retErr := none
            cache := { valid := true, commitIndex := commitIndex, data := data }
            set := s, fetchedWith := some conn }

/-- Structural inversion for `agentSet.refresh`: it either fails (no result,
empty health) or succeeds with a result built from a discovered leader's
error-free config and the corresponding health map. -/
theorem refresh_shape (rs : AgencyConfigResults) :
    ((agentSet.refresh rs).err.isSome ∧ (agentSet.refresh rs).result = none ∧
      (agentSet.refresh rs).health = []) ∨
    (∃ leader res cfg, findLeader rs = some leader ∧ lookupResult rs leader = some res ∧
      res.err = none ∧ res.config = some cfg ∧
      agentSet.refresh rs =
        { err := none, result := some { id := leader, result := cfg, conn := none }
          health := healthOf rs cfg leader }) := by
  cases hfl : findLeader rs with
  | none => exact Or.inl (by simp [agentSet.refresh, hfl])
  | some leader =>
    cases hlr : lookupResult rs leader with
    | none => exact Or.inl (by simp [agentSet.refresh, hfl, hlr])
    | some res =>
      cases herr : res.err with
      | some e => exact Or.inl (by simp [agentSet.refresh, hfl, hlr, herr])
      | none =>
        cases hcfg : res.config with
        | none => exact Or.inl (by simp [agentSet.refresh, hfl, hlr, herr, hcfg])
        | some cfg =>
          exact Or.inr ⟨leader, res, cfg, rfl, hlr, herr, hcfg,
            by simp [agentSet.refresh, hfl, hlr, herr, hcfg]⟩

/-- If `refresh` stored a result, it stored no error. -/
theorem refresh_result_some_err_none (rs : AgencyConfigResults) (res : AgentSetResult)
    (h : (agentSet.refresh rs).result = some res) : (agentSet.refresh rs).err = none := by
  rcases refresh_shape rs with ⟨_, hnone, _⟩ | ⟨l, r, cfg, _, _, _, _, heq⟩
  · rw [hnone] at h; exact absurd h (by simp)
  · rw [heq]

/-- `Reload` when the embedded `refresh` fails: the error is returned with
index 0, the cache is untouched and no body fetch happens. -/
theorem Reload_refresh_err {σ : Type} (c : AgencyCache σ) (rs : AgencyConfigResults)
    (ld : Option Conn → Except Err σ) (e : Err) (h : (agentSet.refresh rs).err = some e) :
    cache.Reload c rs ld =
      { retIndex := 0, retErr := some e, cache := c, set := agentSet.refresh rs
        fetchedWith := none } := by
  simp [cache.Reload, h]

/-- `Reload` when `refresh` succeeded and the leader's commit index equals the
cached one on a valid cache: no body fetch, cache untouched, cached index
returned without error. -/
theorem Reload_noop {σ : Type} (c : AgencyCache σ) (rs : AgencyConfigResults)
    (ld : Option Conn → Except Err σ) (res : AgentSetResult)
    (hres : (agentSet.refresh rs).result = some res)
    (hidx : res.result.commitIndex = c.commitIndex) (hvalid : c.valid = true) :
    cache.Reload c rs ld =
      { retIndex := c.commitIndex, retErr := none, cache := c, set := agentSet.refresh rs
        fetchedWith := none } := by
  have herr := refresh_result_some_err_none rs res hres
  simp [cache.Reload, herr, hres, agentSet.Leader, hidx, hvalid]

/-- `Reload` when `refresh` succeeded and the no-op condition fails: the body
fetch is issued on the stored connection. -/
theorem Reload_fetch {σ : Type} (c : AgencyCache σ) (rs : AgencyConfigResults)
    (ld : Option Conn → Except Err σ) (res : AgentSetResult)
    (hres : (agentSet.refresh rs).result = some res)
    (hcond : ¬(res.result.commitIndex = c.commitIndex ∧ c.valid = true)) :
    cache.Reload c rs ld =
      match ld res.conn with
      | .error e =>
        { retIndex := res.result.commitIndex, retErr := some e
          cache := { c with valid := false }, set := agentSet.refresh rs
          fetchedWith := some res.conn }
      | .ok data =>
        { retIndex := res.result.commitIndex, retErr := none
          cache := { valid := true, commitIndex := res.result.commitIndex, data := data }
          set := agentSet.refresh rs, fetchedWith := some res.conn } := by
  have herr := refresh_result_some_err_none rs res hres
  cases hld : ld res.conn with
  | error e => simp [cache.Reload, herr, hres, agentSet.Leader, hcond, hld]
  | ok data => simp [cache.Reload, herr, hres, agentSet.Leader, hcond, hld]

/-- The leader-id of the config stored by `refresh` (used by concrete runs). -/
def cfgA3 : AgencyConfig :=
  { leaderId := some "A", commitIndex := 3, configurationId := "cfg", active := ["A"] }

/-- One agent A claiming leadership of itself at commit index 3. -/
def responsesAt3 : AgencyConfigResults :=
  [("A", { config := some cfgA3, err := none, conn := some 0 })]

/-- A valid cache at commit index 5 holding payload 1. -/
def cacheAt5 : AgencyCache Nat := { valid := true, commitIndex := 5, data := 1 }

/-- A valid cache at commit index 3 holding payload 7. -/
def cacheAt3 : AgencyCache Nat := { valid := true, commitIndex := 3, data := 7 }

/-- A body fetch that succeeds with payload 2. -/
def loadOk2 : Option Conn → Except Err Nat := fun _ => .ok 2

/-- Claim C1 as stated is false on the code: with a valid cache at commit
index 5, a Reload observing a leader at the strictly older commit index 3
does not leave the cached State unchanged — the body is fetched and the
cached data 1 is replaced by 2, because `cache.Reload` only short-circuits
when the observed index is exactly equal to the cached one. -/
theorem C1_counterexample :
    cacheAt5.valid = true ∧
    agentSet.Leader (agentSet.refresh responsesAt3).result = some ("A", 3, none) ∧
    3 < cacheAt5.commitIndex ∧
    (cache.Reload cacheAt5 responsesAt3 loadOk2).cache.data ≠ cacheAt5.data := by
  decide

/-- Claim C1, amended: the cached State is replaced only when the newly
observed leader commit index differs from the cached one or no valid cached
data exists; a Reload observing an index equal to the cached one with valid
cached data leaves the cache unchanged. -/
theorem C1_amended_replace_guard {σ : Type} (c : AgencyCache σ) (rs : AgencyConfigResults)
    (ld : Option Conn → Except Err σ) :
    ((cache.Reload c rs ld).cache ≠ c →
      ∃ res, (agentSet.refresh rs).result = some res ∧
        (res.result.commitIndex ≠ c.commitIndex ∨ c.valid = false)) ∧
    (∀ res, (agentSet.refresh rs).result = some res →
      res.result.commitIndex = c.commitIndex → c.valid = true →
      (cache.Reload c rs ld).cache = c) := by
  constructor
  · intro hne
    rcases refresh_shape rs with ⟨herr, _, _⟩ | ⟨leader, r, cfg, _, _, _, _, heq⟩
    · cases he : (agentSet.refresh rs).err with
      | none => rw [he] at herr; exact absurd herr (by simp)
      | some e => exact absurd (congrArg ReloadOut.cache (Reload_refresh_err c rs ld e he)) hne
    · refine ⟨{ id := leader, result := cfg, conn := none }, by rw [heq], ?_⟩
      by_cases hcond : cfg.commitIndex = c.commitIndex ∧ c.valid = true
      · exact absurd
          (congrArg ReloadOut.cache
            (Reload_noop c rs ld { id := leader, result := cfg, conn := none }
              (by rw [heq]) hcond.1 hcond.2)) hne
      · rcases Decidable.not_and_iff_or_not.mp hcond with h | h
        · exact Or.inl h
        · exact Or.inr (by simpa using h)
  · intro res hres hidx hvalid
    exact congrArg ReloadOut.cache (Reload_noop c rs ld res hres hidx hvalid)

/-- Witness for the amended C1: a concrete Reload at an equal observed index
(3 = 3, valid cache) leaves the cache unchanged. -/
theorem C1_amended_witness :
    (cache.Reload cacheAt3 responsesAt3 loadOk2).cache = cacheAt3 :=
  (C1_amended_replace_guard cacheAt3 responsesAt3 loadOk2).2
    { id := "A", result := cfgA3, conn := none } (by decide) rfl rfl

/-- Claim C2: when the leader's observed commit index equals the cached one
and the cached data is valid, `Reload` performs no body fetch, leaves the
cached data and validity unchanged, and returns the cached commit index with
no error. -/
theorem C2_reload_noop_on_equal_index {σ : Type} (c : AgencyCache σ)
    (rs : AgencyConfigResults) (ld : Option Conn → Except Err σ) (res : AgentSetResult)
    (hres : (agentSet.refresh rs).result = some res)
    (hidx : res.result.commitIndex = c.commitIndex) (hvalid : c.valid = true) :
    cache.Reload c rs ld =
      { retIndex := c.commitIndex, retErr := none, cache := c, set := agentSet.refresh rs
        fetchedWith := none } :=
  Reload_noop c rs ld res hres hidx hvalid

/-- The leader config of the end-to-end scenario: leader A at commit index 42
with three active agents. -/
def cfgA42 : AgencyConfig :=
  { leaderId := some "A", commitIndex := 42, configurationId := "cfg"
    active := ["A", "B", "C"] }

/-- Agency poll of 3 agents returning leader A at commit index 42. -/
def responsesAt42 : AgencyConfigResults :=
  [("A", { config := some cfgA42, err := none, conn := some 0 }),
   ("B", { config := some cfgA42, err := none, conn := some 1 }),
   ("C", { config := some cfgA42, err := none, conn := some 2 })]

/-- A valid cache already at commit index 42. -/
def cacheAt42 : AgencyCache Nat := { valid := true, commitIndex := 42, data := 9 }

/-- A body fetch that would fail if it were ever issued. -/
def loadFail : Option Conn → Except Err Nat := fun _ => .error "body fetch issued"

/-- Witness for C2: the end-to-end scenario — leader at 42, valid cache at 42 —
returns 42 with no error, the cache unchanged and no body pulled (the fetch
oracle would have failed had it been called). -/
theorem C2_witness :
    cache.Reload cacheAt42 responsesAt42 loadFail =
      { retIndex := 42, retErr := none, cache := cacheAt42
        set := agentSet.refresh responsesAt42, fetchedWith := none } :=
  C2_reload_noop_on_equal_index cacheAt42 responsesAt42 loadFail
    { id := "A", result := cfgA42, conn := none } (by decide) rfl rfl

/-- If no response carries a leader id, the leader scan finds none. -/
theorem findLeader_eq_none (rs : AgencyConfigResults)
    (h : ∀ p ∈ rs, (p.2.config.bind fun cfg => cfg.leaderId) = none) :
    findLeader rs = none := by
  induction rs with
  | nil => rfl
  | cons hd tl ih =>
    have htl := ih (fun p hp => h p (List.mem_cons_of_mem hd hp))
    obtain ⟨k, v⟩ := hd
    by_cases herr : v.err.isSome
    · simpa [findLeader, herr] using htl
    · cases hcfg : v.config with
      | none => simpa [findLeader, herr, hcfg] using htl
      | some cfg =>
        have hl : cfg.leaderId = none := by
          have := h (k, v) (by simp)
          simpa [hcfg] using this
        simpa [findLeader, herr, hcfg, hl] using htl

/-- Claim C4: when no polled server's response contains a leaderId, Reload
returns the NoLeader error without touching the cached State or its validity
flag and without fetching any body, so Data() still returns the previously
cached data. -/
theorem C4_reload_no_leader_keeps_cache {σ : Type} (c : AgencyCache σ)
    (rs : AgencyConfigResults) (ld : Option Conn → Except Err σ)
    (h : ∀ p ∈ rs, (p.2.config.bind fun cfg => cfg.leaderId) = none) :
    (cache.Reload c rs ld).retErr = some "NoLeader in Agency" ∧
    (cache.Reload c rs ld).cache = c ∧
    (cache.Reload c rs ld).fetchedWith = none := by
  have hfl := findLeader_eq_none rs h
  have hr : (agentSet.refresh rs).err = some "NoLeader in Agency" := by
    simp [agentSet.refresh, hfl]
  rw [Reload_refresh_err c rs ld _ hr]
  exact ⟨rfl, rfl, rfl⟩

/-- Responses with no leader id anywhere: one error-free response without a
leader claim and one failed poll. -/
def responsesNoLeader : AgencyConfigResults :=
  [("A", { config := some { leaderId := none, commitIndex := 10, configurationId := "cfg"
                            active := ["A"] }
           err := none, conn := some 0 }),
   ("B", { config := none, err := some "timeout", conn := none })]

/-- Witness for C4 at a concrete leaderless poll. -/
theorem C4_witness :
    (cache.Reload cacheAt5 responsesNoLeader loadOk2).retErr = some "NoLeader in Agency" ∧
    (cache.Reload cacheAt5 responsesNoLeader loadOk2).cache = cacheAt5 ∧
    (cache.Reload cacheAt5 responsesNoLeader loadOk2).fetchedWith = none :=
  C4_reload_no_leader_keeps_cache cacheAt5 responsesNoLeader loadOk2 (by decide)

/-- `respondedOk` unfolded into the existence of an error-free response. -/
theorem respondedOk_iff (rs : AgencyConfigResults) (z : String) :
    respondedOk rs z = true ↔ ∃ q, lookupResult rs z = some q ∧ q.err = none := by
  unfold respondedOk
  cases h : lookupResult rs z with
  | none => simp
  | some q => simp [Option.isNone_iff_eq_none]

/-- The leader (its own response being error-free) with an empty active list:
refresh succeeds and still marks the leader healthy. -/
def cfgLeaderNotActive : AgencyConfig :=
  { leaderId := some "A", commitIndex := 1, configurationId := "cfg", active := [] }

/-- A single-agent poll where the leader does not list itself active. -/
def responsesLeaderNotActive : AgencyConfigResults :=
  [("A", { config := some cfgLeaderNotActive, err := none, conn := none })]

/-- Claim C7 as stated is false on the code: in a successful refresh whose
leader A reports an empty active-peer list, A is not listed active by the
leader, yet the computed health map marks A healthy (the code marks the
discovered leader healthy unconditionally). -/
theorem C7_counterexample :
    (agentSet.refresh responsesLeaderNotActive).err = none ∧
    (agentSet.refresh responsesLeaderNotActive).health = ["A"] ∧
    (agentSet.refresh responsesLeaderNotActive).result.map (fun r => r.result.active) =
      some [] := by
  decide

/-- Claim C7, amended: after a successful refresh, an agent is marked healthy
if and only if it is the discovered leader, or it is listed in the leader's
active-peer list and its own config request returned without error; no other
agent appears as healthy. -/
theorem C7_amended_health_iff (rs : AgencyConfigResults) (res : AgentSetResult)
    (hres : (agentSet.refresh rs).result = some res) (z : String) :
    z ∈ (agentSet.refresh rs).health ↔
      (z = res.id ∨
        (z ∈ res.result.active ∧ ∃ q, lookupResult rs z = some q ∧ q.err = none)) := by
  rcases refresh_shape rs with ⟨_, hnone, _⟩ | ⟨leader, r, cfg, _, _, _, _, heq⟩
  · rw [hnone] at hres; exact absurd hres (by simp)
  · rw [heq] at hres
    have hres2 : res = { id := leader, result := cfg, conn := none } := by
      simpa using hres.symm
    subst hres2
    rw [heq]
    simp only [healthOf, List.mem_cons, List.mem_filter]
    constructor
    · rintro (h | ⟨hz, hok⟩)
      · exact Or.inl h
      · exact Or.inr ⟨hz, (respondedOk_iff rs z).mp hok⟩
    · rintro (h | ⟨hz, hok⟩)
      · exact Or.inl h
      · exact Or.inr ⟨hz, (respondedOk_iff rs z).mpr hok⟩

/-- Witness for the amended C7 at the three-agent poll: agent B is healthy
exactly by the leader/active-and-error-free disjunction. -/
theorem C7_amended_witness :
    "B" ∈ (agentSet.refresh responsesAt42).health ↔
      ("B" = "A" ∨
        ("B" ∈ cfgA42.active ∧
          ∃ q, lookupResult responsesAt42 "B" = some q ∧ q.err = none)) :=
  C7_amended_health_iff responsesAt42 { id := "A", result := cfgA42, conn := none }
    (by decide) "B"

/-- Claim C10: a successful refresh stores a leader result whose connection is
nil (the result is built from the leader's id and config only), `Leader()`
then reports that nil connection, and whenever `Reload` does fetch the state
body, the fetch is issued on that nil connection. -/
theorem C10_nil_leader_conn {σ : Type} (c : AgencyCache σ) (rs : AgencyConfigResults)
    (ld : Option Conn → Except Err σ) (res : AgentSetResult)
    (hres : (agentSet.refresh rs).result = some res) :
    res.conn = none ∧
    agentSet.Leader (agentSet.refresh rs).result =
      some (res.id, res.result.commitIndex, none) ∧
    (¬(res.result.commitIndex = c.commitIndex ∧ c.valid = true) →
      (cache.Reload c rs ld).fetchedWith = some none) := by
  have hconn : res.conn = none := by
    rcases refresh_shape rs with ⟨_, hnone, _⟩ | ⟨leader, r, cfg, _, _, _, _, heq⟩
    · rw [hnone] at hres; exact absurd hres (by simp)
    · rw [heq] at hres
      have : res = { id := leader, result := cfg, conn := none } := by
        simpa using hres.symm
      rw [this]
  refine ⟨hconn, ?_, ?_⟩
  · simp [agentSet.Leader, hres, hconn]
  · intro hcond
    rw [Reload_fetch c rs ld res hres hcond]
    cases ld res.conn with
    | error e => simp [hconn]
    | ok data => simp [hconn]

/-- Witness for C10: a concrete Reload that does fetch (index 3 against a
cache at 5) issues the fetch on a nil connection. -/
theorem C10_witness :
    (cache.Reload cacheAt5 responsesAt3 loadOk2).fetchedWith = some none :=
  (C10_nil_leader_conn cacheAt5 responsesAt3 loadOk2
    { id := "A", result := cfgA3, conn := none } (by decide)).2.2 (by decide)

/-- A per-kind throttle (the `throttle` component consulted by
`refreshInThreads`): `Throttle()` allows a refresh once `now` reaches
`nextAllowed`; `Delay()` pushes `nextAllowed` forward by the configured
per-kind delay. -/
structure KindThrottle where
  nextAllowed : Nat
  delay : Nat
deriving Repr, DecidableEq

/-- A registered `inspectorLoader` for one resource kind: `load` is the data
the loader would fetch now (an oracle, since fetching is an outbound call) and
`verify` its structural check. `Copy` is the per-kind swap into the visible
snapshot, modelled by the list replacement on success. -/
structure Loader (κ : Type) where
  load : κ
  verify : κ → Option Err

/-- The `inspectorState` fields relevant to refresh: per-kind data (one entry
per registered loader), throttles, the pre-fetched deployment result, the
last-refresh time, the initialised flag and the discovered server version. -/
structure InspectorState (κ : Type) where
  kinds : List κ
  throttles : List KindThrottle
  deploymentResult : Option (Except Err Nat)
  last : Nat
  initialised : Bool
  versionInfo : String
deriving Repr

/-- The environment of one `refreshInThreads` call: the registered loaders,
the deployment fetch outcome, the discovered server version, the clock, and
the whole-state validation (`inspectorState.validate`, which chains the
per-kind `validate()` calls). -/
structure RefreshEnv (κ : Type) where
  loaders : List (Loader κ)
  deplFetch : Except Err Nat
  serverVersion : Except Err String
  now : Nat
  validate : List κ → Option Err

/-- The per-kind load pass over the scratch copy: a kind is re-fetched only
when its throttle allows it, otherwise the previous data is kept. -/
def loadKinds {κ : Type} (i : InspectorState κ) (env : RefreshEnv κ) : List κ :=
  List.zipWith (fun (p : κ × KindThrottle) (l : Loader κ) =>
    if env.now ≥ p.2.nextAllowed then l.load else p.1)
    (i.kinds.zip i.throttles) env.loaders

/-- The throttle state after the load pass: every kind whose refresh ran has
its `Delay()` applied; skipped kinds keep their window. -/
def delayThrottles {κ : Type} (i : InspectorState κ) (env : RefreshEnv κ) : List KindThrottle :=
  List.zipWith (fun (t : KindThrottle) (_ : Loader κ) =>
    if env.now ≥ t.nextAllowed then { t with nextAllowed := env.now + t.delay } else t)
    i.throttles env.loaders

/-- The verification pass: the first loader whose `Verify` fails aborts the
refresh with its error. -/
def firstVerifyErr {κ : Type} (loaders : List (Loader κ)) (kinds : List κ) : Option Err :=
  (loaders.zip kinds).findSome? (fun p => p.1.verify p.2)

/-- `inspectorState.refreshInThreads` (inspector.go): build a scratch copy,
load every unthrottled kind into it, then verify each loader and validate the
assembled state; only if all of that passes are the per-kind data, deployment
result, throttles, last-refresh time and initialised flag swapped into the
visible snapshot — any verify or validate error returns that error with the
visible snapshot untouched. (The server version is written to the scratch
copy but never copied back to the visible state, mirroring the code.) -/
def refreshInThreads {κ : Type} (i : InspectorState κ) (env : RefreshEnv κ) :
    Option Err × InspectorState κ :=
  let newKinds := loadKinds i env
  match firstVerifyErr env.loaders newKinds with
  | some e => (some e, i)
  | none =>
    match env.validate newKinds with
    | some e => (some e, i)
    | none =>
      (none,
        { kinds := newKinds
          throttles := delayThrottles i env
          deploymentResult := some env.deplFetch
          last := env.now
          initialised := true
          versionInfo := i.versionInfo })

/-- Claim C3: a refresh in which any per-kind load fails verification or the
assembled state fails validation returns an error and leaves the previously
visible snapshot entirely unchanged (per-kind data, deployment result,
throttles, last-refresh time and initialised flag included); conversely a
refresh that returns no error had every loader verify and the state validate,
so the swap happens only after all checks pass. -/
theorem C3_swap_only_after_checks {κ : Type} (i : InspectorState κ) (env : RefreshEnv κ) :
    (((firstVerifyErr env.loaders (loadKinds i env)).isSome ∨
        (env.validate (loadKinds i env)).isSome) →
      (refreshInThreads i env).1.isSome ∧ (refreshInThreads i env).2 = i) ∧
    ((refreshInThreads i env).1 = none →
      (∀ p ∈ env.loaders.zip (loadKinds i env), p.1.verify p.2 = none) ∧
      env.validate (loadKinds i env) = none) := by
  cases hv : firstVerifyErr env.loaders (loadKinds i env) with
  | some e =>
    refine ⟨fun _ => ⟨?_, ?_⟩, fun hnone => ?_⟩
    · simp [refreshInThreads, hv]
    · simp [refreshInThreads, hv]
    · rw [show (refreshInThreads i env).1 = some e by simp [refreshInThreads, hv]] at hnone
      exact absurd hnone (by simp)
  | none =>
    cases hval : env.validate (loadKinds i env) with
    | some e =>
      refine ⟨fun _ => ⟨?_, ?_⟩, fun hnone => ?_⟩
      · simp [refreshInThreads, hv, hval]
      · simp [refreshInThreads, hv, hval]
      · rw [show (refreshInThreads i env).1 = some e by simp [refreshInThreads, hv, hval]]
          at hnone
        exact absurd hnone (by simp)
    | none =>
      refine ⟨fun habs => ?_, fun _ => ?_⟩
      · rcases habs with h | h
        · exact absurd h (by simp)
        · exact absurd h (by simp)
      · exact ⟨List.findSome?_eq_none_iff.mp hv, rfl⟩

/-- A loader whose data verifies (payload lists of naturals, verify requires
nonemptiness). -/
def loaderOkC3 : Loader (List Nat) :=
  { load := [5], verify := fun k => if k.isEmpty then some "empty" else none }

/-- A loader whose freshly loaded data fails verification. -/
def loaderBadC3 : Loader (List Nat) :=
  { load := [], verify := fun k => if k.isEmpty then some "empty" else none }

/-- A visible snapshot with two kinds, open throttles and old metadata. -/
def snapshotC3 : InspectorState (List Nat) :=
  { kinds := [[1], [2]]
    throttles := [{ nextAllowed := 0, delay := 4 }, { nextAllowed := 0, delay := 4 }]
    deploymentResult := none
    last := 0
    initialised := false
    versionInfo := "v0" }

/-- An environment whose second loader loads data that fails verification. -/
def envBadC3 : RefreshEnv (List Nat) :=
  { loaders := [loaderOkC3, loaderBadC3]
    deplFetch := .ok 1
    serverVersion := .ok "1.23"
    now := 7
    validate := fun _ => none }

/-- Witness for C3: the refresh against the failing loader returns its error
and leaves the visible snapshot unchanged. -/
theorem C3_witness :
    (refreshInThreads snapshotC3 envBadC3).1.isSome ∧
    (refreshInThreads snapshotC3 envBadC3).2 = snapshotC3 :=
  (C3_swap_only_after_checks snapshotC3 envBadC3).1 (Or.inl (by decide))

/-- Action types are identified by their registered names. -/
abbrev ActionType := String

/-- A timeout table: action type to duration (`map[ActionType]meta.Duration`). -/
abbrev TimeoutMap := List (ActionType × Nat)

/-- `getActionTimeout` (action_timeouts.go): the spec's per-type entry when
`spec.Timeouts` is set and holds the type, else the registered per-type entry.
The package-level registry `actionTimeouts` and the spec's optional timeout
table are passed explicitly. -/
def getActionTimeout (specTimeouts : Option TimeoutMap) (actionTimeouts : TimeoutMap)
    (t : ActionType) : Option Nat :=
  match specTimeouts.bind (fun m => m.lookup t) with
  | some d => some d
  | none => actionTimeouts.lookup t

/-- `GetActionTimeout` (action_timeouts.go): resolve the timeout for `t`, then
for the literal type `"default"`, then fall back to the global default. -/
def GetActionTimeout (specTimeouts : Option TimeoutMap) (actionTimeouts : TimeoutMap)
    (defaultTimeout : Nat) (t : ActionType) : Nat :=
  match getActionTimeout specTimeouts actionTimeouts t with
  | some d => d
  | none =>
    match getActionTimeout specTimeouts actionTimeouts "default" with
    | some d => d
    | none => defaultTimeout

/-- Claim C8: `GetActionTimeout` returns the spec's per-type override for `t`
when set; otherwise the timeout registered for `t`; otherwise the spec's
"default" entry when set; otherwise the global default — so a per-type spec
override always takes precedence over the registered default for that type.
The hypothesis that no action type named "default" is registered reflects the
registry, which is populated only by `registerAction` calls on real action
types. -/
theorem C8_timeout_precedence (spec : Option TimeoutMap) (reg : TimeoutMap) (dflt : Nat)
    (t : ActionType) (hreg : reg.lookup "default" = none) :
    (∀ d, spec.bind (fun m => m.lookup t) = some d →
      GetActionTimeout spec reg dflt t = d) ∧
    (spec.bind (fun m => m.lookup t) = none → ∀ d, reg.lookup t = some d →
      GetActionTimeout spec reg dflt t = d) ∧
    (spec.bind (fun m => m.lookup t) = none → reg.lookup t = none →
      ∀ d, spec.bind (fun m => m.lookup "default") = some d →
      GetActionTimeout spec reg dflt t = d) ∧
    (spec.bind (fun m => m.lookup t) = none → reg.lookup t = none →
      spec.bind (fun m => m.lookup "default") = none →
      GetActionTimeout spec reg dflt t = dflt) := by
  refine ⟨?_, ?_, ?_, ?_⟩
  · intro d hd
    simp [GetActionTimeout, getActionTimeout, hd]
  · intro hnone d hd
    simp [GetActionTimeout, getActionTimeout, hnone, hd]
  · intro hnone hregt d hd
    simp [GetActionTimeout, getActionTimeout, hnone, hregt, hd]
  · intro hnone hregt hdef
    simp [GetActionTimeout, getActionTimeout, hnone, hregt, hdef, hreg]

/-- Witness for C8: a spec override of 10 for type "x" wins over the
registered 30 for "x". -/
theorem C8_witness :
    GetActionTimeout (some [("x", 10), ("default", 20)]) [("x", 30), ("y", 40)] 50 "x" = 10 :=
  (C8_timeout_precedence (some [("x", 10), ("default", 20)]) [("x", 30), ("y", 40)] 50 "x"
    (by decide)).1 10 (by decide)

/-- A container of a pod spec or template: name and image. -/
structure Container where
  name : String
  image : String
deriving Repr, DecidableEq

/-- The member status fields `actionRuntimeContainerImageUpdate.Start` reads:
pod name, owning cluster and whether `m.Phase.IsReady()`. -/
structure MemberStatus where
  podName : String
  clusterID : String
  phaseReady : Bool
deriving Repr, DecidableEq

/-- The `ArangoMember` templates consulted by `Start`: the containers of
`Spec.Template.PodSpec` and of `Status.Template.PodSpec`, `none` when either
the template or its pod spec is nil. -/
structure ArangoMemberTemplates where
  specContainers : Option (List Container)
  statusContainers : Option (List Container)
deriving Repr, DecidableEq

/-- The environment of one `Start` call: each outbound lookup's outcome and
the result the pod `Update` call would have. -/
structure ImageUpdateEnv where
  member : Option MemberStatus
  clusterCacheOk : Bool
  containerName : Option String
  containerImage : Option String
  arangoMember : Option ArangoMemberTemplates
  podContainers : Option (List Container)
  updateErr : Option Err
deriving Repr, DecidableEq

/-- The observable outcome of `Start`: the returned `(ready, err)` pair and
the pod `Update` call issued, if any (with the container list it sent). -/
structure StartOut where
  ready : Bool
  err : Option Err
  update : Option (List Container)
deriving Repr, DecidableEq

/-- The container loop of `Start`: walk the three container lists in lock
step; the first index whose pod, spec-template and status-template names all
equal the requested name decides — returning that pod container and the pod's
container list with its image replaced by the target image. -/
def imageScan (name image : String) :
    List Container → List Container → List Container → Option (Container × List Container)
  | p :: ps, s :: ss, t :: ts =>
    if p.name = s.name ∧ p.name = t.name ∧ p.name = name then
      some (p, { p with image := image } :: ps)
    else
      (imageScan name image ps ss ts).map (fun q => (q.1, p :: q.2))
  | _, _, _ => none

/-- `actionRuntimeContainerImageUpdate.Start`: resolve member, cluster cache,
action params, member phase, ArangoMember templates and the pod; if a lock-step
name match is found and the pod's image differs from the target, issue the pod
Update (ready=false on success, the update error otherwise); if the image
already matches, short-circuit to ready with no call. All other missing-data
branches return ready with no error and no call (except the missing
ArangoMember and the not-ready cluster cache, which error as in the code). -/
def actionRuntimeContainerImageUpdate.Start (env : ImageUpdateEnv) : StartOut :=
  match env.member with
  | none => { ready := true, err := none, update := none }
  | some m =>
    if env.clusterCacheOk = false then
      { ready := true, err := some "Client is not ready", update := none }
    else
      match env.containerName, env.containerImage with
      | some name, some image =>
        if m.phaseReady = false then
          { ready := true, err := none, update := none }
        else
          match env.arangoMember with
          | none => { ready := false, err := some "ArangoMember not found", update := none }
          | some am =>
            match env.podContainers with
            | none => { ready := true, err := none, update := none }
            | some podC =>
              match am.specContainers, am.statusContainers with
              | some specC, some statusC =>
                if podC.length ≠ specC.length then
                  { ready := true, err := none, update := none }
                else if podC.length ≠ statusC.length then
                  { ready := true, err := none, update := none }
                else
                  match imageScan name image podC specC statusC with
                  | none => { ready := true, err := none, update := none }
                  | some (c, newPod) =>
                    if c.image ≠ image then
                      match env.updateErr with
                      | some e => { ready := true, err := some e, update := some newPod }
                      | none => { ready := false, err := none, update := some newPod }
                    else
                      { ready := true, err := none, update := none }
              | _, _ => { ready := true, err := none, update := none }
      | _, _ => { ready := true, err := none, update := none }

/-- Claim C5: when the pod's container named in the action params already runs
the requested image (all lookups succeeding and the lock-step name match
landing on that container), `Start` returns ready with no error and issues no
pod Update call; since `Start` is a function of this environment, a second
call after a restart returns the same outcome and issues no duplicate
side-effecting call. -/
theorem C5_start_short_circuits (env : ImageUpdateEnv) (m : MemberStatus)
    (name image : String) (am : ArangoMemberTemplates)
    (podC specC statusC : List Container) (c : Container) (newPod : List Container)
    (hm : env.member = some m) (hcc : env.clusterCacheOk = true)
    (hn : env.containerName = some name) (hi : env.containerImage = some image)
    (hph : m.phaseReady = true) (ham : env.arangoMember = some am)
    (hpod : env.podContainers = some podC) (hspec : am.specContainers = some specC)
    (hstat : am.statusContainers = some statusC)
    (hlen1 : podC.length = specC.length) (hlen2 : podC.length = statusC.length)
    (hscan : imageScan name image podC specC statusC = some (c, newPod))
    (hsat : c.image = image) :
    actionRuntimeContainerImageUpdate.Start env =
      { ready := true, err := none, update := none } := by
  simp [actionRuntimeContainerImageUpdate.Start, hm, hcc, hn, hi, hph, ham, hpod, hspec,
    hstat, hlen1, hlen2, hscan, hsat]

/-- A concrete already-satisfied environment: container "server" already runs
"arangodb:3.9". -/
def envSatisfiedC5 : ImageUpdateEnv :=
  { member := some { podName := "pod-1", clusterID := "c1", phaseReady := true }
    clusterCacheOk := true
    containerName := some "server"
    containerImage := some "arangodb:3.9"
    arangoMember := some
      { specContainers := some [{ name := "server", image := "arangodb:3.9" }]
        statusContainers := some [{ name := "server", image := "arangodb:3.9" }] }
    podContainers := some [{ name := "server", image := "arangodb:3.9" }]
    updateErr := none }

/-- Witness for C5 at the satisfied environment. -/
theorem C5_witness :
    actionRuntimeContainerImageUpdate.Start envSatisfiedC5 =
      { ready := true, err := none, update := none } :=
  C5_start_short_circuits envSatisfiedC5
    { podName := "pod-1", clusterID := "c1", phaseReady := true }
    "server" "arangodb:3.9"
    { specContainers := some [{ name := "server", image := "arangodb:3.9" }]
      statusContainers := some [{ name := "server", image := "arangodb:3.9" }] }
    [{ name := "server", image := "arangodb:3.9" }]
    [{ name := "server", image := "arangodb:3.9" }]
    [{ name := "server", image := "arangodb:3.9" }]
    { name := "server", image := "arangodb:3.9" }
    [{ name := "server", image := "arangodb:3.9" }]
    rfl rfl rfl rfl rfl rfl rfl rfl rfl rfl rfl (by decide) rfl

/-- An HTTP response as seen by the authentication wrapper: only the status
code is inspected. -/
structure Resp where
  statusCode : Nat
deriving Repr, DecidableEq

/-- The environment of one `authenticate.Do` call: the outcome of the first
underlying `conn.Do`, the outcome of `Reauthenticate` (auth refresh plus
`SetAuthentication`, already wrapped; `none` = success), and the outcome of
the reissued `conn.Do`. -/
structure AuthDoEnv where
  first : Except Err Resp
  reauth : Option Err
  second : Except Err Resp
deriving Repr

/-- The observable outcome of `authenticate.Do`: the returned response or
error, and how many underlying `Do` round trips and auth refreshes ran. -/
structure AuthDoOut where
  result : Except Err Resp
  doCalls : Nat
  reauthCalls : Nat
deriving Repr

/-- `authenticate.Do` (conn package): issue the request; propagate transport
errors; return any non-401 response unchanged; on 401 refresh the
authentication once and reissue the request, returning the second outcome
as-is (even another 401), or the refresh error if re-authentication fails. -/
def authenticate.Do (env : AuthDoEnv) : AuthDoOut :=
  match env.first with
  | .error e => { result := .error e, doCalls := 1, reauthCalls := 0 }
  | .ok resp =>
    if resp.statusCode ≠ 401 then
      { result := .ok resp, doCalls := 1, reauthCalls := 0 }
    else
      match env.reauth with
      | some e => { result := .error e, doCalls := 1, reauthCalls := 1 }
      | none => { result := env.second, doCalls := 2, reauthCalls := 1 }

/-- Claim C9: a first response that is not 401 is returned unchanged with no
refresh; a 401 triggers exactly one authentication refresh and one reissue
whose outcome is returned as-is — a second consecutive 401 is returned, not
retried — and a failed refresh returns the refresh error after a single
round trip. -/
theorem C9_reauth_once (env : AuthDoEnv) :
    (∀ resp, env.first = .ok resp → resp.statusCode ≠ 401 →
      authenticate.Do env = { result := .ok resp, doCalls := 1, reauthCalls := 0 }) ∧
    (∀ resp, env.first = .ok resp → resp.statusCode = 401 → env.reauth = none →
      authenticate.Do env = { result := env.second, doCalls := 2, reauthCalls := 1 }) ∧
    (∀ resp e, env.first = .ok resp → resp.statusCode = 401 → env.reauth = some e →
      authenticate.Do env = { result := .error e, doCalls := 1, reauthCalls := 1 }) := by
  refine ⟨?_, ?_, ?_⟩
  · intro resp h1 h2
    simp [authenticate.Do, h1, h2]
  · intro resp h1 h2 h3
    simp [authenticate.Do, h1, h2, h3]
  · intro resp e h1 h2 h3
    simp [authenticate.Do, h1, h2, h3]

/-- Witness for C9: a 401 followed by a successful refresh and a second 401 —
the second 401 is returned after exactly one refresh and two round trips. -/
theorem C9_witness :
    authenticate.Do
        { first := .ok { statusCode := 401 }, reauth := none
          second := .ok { statusCode := 401 } } =
      { result := .ok { statusCode := 401 }, doCalls := 2, reauthCalls := 1 } :=
  (C9_reauth_once
    { first := .ok { statusCode := 401 }, reauth := none
      second := .ok { statusCode := 401 } }).2.1
    { statusCode := 401 } rfl rfl rfl

/-- Modelled from the spec: the cluster spec fields relevant to the
immutable-field policy — the three immutable post-creation fields (storage
engine, encryption key secret reference, deployment mode) plus a
representative mutable field. The enforcement code (spec-acceptance check
with silent revert) is not under src/; only its end-to-end test is, so the
behaviour is modelled from the spec's words. -/
structure ClusterSpecM where
  storageEngine : String
  encryptionKeySecretName : String
  mode : String
  memberCount : Nat
deriving Repr, DecidableEq

/-- The immutable projection of a cluster spec. -/
def immutableFieldsOf (s : ClusterSpecM) : String × String × String :=
  (s.storageEngine, s.encryptionKeySecretName, s.mode)

/-- Modelled from the spec: during the spec-acceptance check the core rewrites
every immutable field of the externally visible spec back to its last-accepted
value, keeping mutable fields as provided. -/
def revertImmutable (accepted cur : ClusterSpecM) : ClusterSpecM :=
  { cur with
    storageEngine := accepted.storageEngine
    encryptionKeySecretName := accepted.encryptionKeySecretName
    mode := accepted.mode }

/-- Modelled from the spec: the per-tick core state relevant to claim C6 —
the last-accepted spec, the externally visible current spec, the pending plan
and the current UpToDate condition value. -/
structure CoreStateM where
  accepted : ClusterSpecM
  current : ClusterSpecM
  plan : List String
  upToDate : Bool
deriving Repr, DecidableEq

/-- The outcome of one reconciliation tick: the new core state and the
condition transition recorded this tick (condition type with its new value),
if any. -/
structure TickOut where
  state : CoreStateM
  transition : Option (String × Bool)
deriving Repr, DecidableEq

/-- Modelled from the spec: one reconciliation tick of the condition logic
around immutable fields. SpecAccepted compares the incoming current spec's
checksum (modelled by the spec value itself) against the accepted one;
UpToDate requires SpecAccepted and an empty plan; an immutable change is
detected during the acceptance check and the field is rewritten back to its
last-accepted value, never propagated into the accepted spec. A transition is
recorded when the UpToDate value changes. -/
def tick (s : CoreStateM) : TickOut :=
  let specAccepted : Bool := s.current == s.accepted
  let restored := revertImmutable s.accepted s.current
  let upd : Bool := specAccepted && s.plan.isEmpty
  { state := { s with current := restored, upToDate := upd }
    transition := if upd ≠ s.upToDate then some ("UpToDate", upd) else none }

/-- Claim C6: if an immutable field of the visible spec is changed in place by
an external actor, the core restores it within the next two reconciliation
ticks (here already by the first), never propagates the change into the
accepted spec, and records no UpToDate=true transition in between. Modelled
from the spec, as the enforcement code is not under src/. -/
theorem C6_immutable_revert (s : CoreStateM)
    (hchanged : immutableFieldsOf s.current ≠ immutableFieldsOf s.accepted) :
    immutableFieldsOf (tick s).state.current = immutableFieldsOf s.accepted ∧
    immutableFieldsOf (tick (tick s).state).state.current = immutableFieldsOf s.accepted ∧
    (tick s).state.accepted = s.accepted ∧
    (tick (tick s).state).state.accepted = s.accepted ∧
    (tick s).transition ≠ some ("UpToDate", true) := by
  refine ⟨rfl, rfl, rfl, rfl, ?_⟩
  have hacc : (s.current == s.accepted) = false := by
    refine beq_eq_false_iff_ne.mpr (fun h => hchanged ?_)
    rw [h]
  simp only [tick, hacc, Bool.false_and]
  intro hcontra
  rcases ite_eq_iff.mp hcontra with ⟨_, h⟩ | ⟨_, h⟩
  · exact absurd (Prod.ext_iff.mp (Option.some_injective _ h)).2 (by simp)
  · exact absurd h (by simp)

/-- A steady cluster state whose storage engine was just flipped externally
from rocksdb to mmfiles. -/
def tamperedC6 : CoreStateM :=
  { accepted :=
      { storageEngine := "rocksdb", encryptionKeySecretName := "key-secret"
        mode := "Cluster", memberCount := 3 }
    current :=
      { storageEngine := "mmfiles", encryptionKeySecretName := "key-secret"
        mode := "Cluster", memberCount := 3 }
    plan := []
    upToDate := true }

/-- Witness for C6 at the tampered state. -/
theorem C6_witness :
    immutableFieldsOf (tick tamperedC6).state.current =
      immutableFieldsOf tamperedC6.accepted ∧
    immutableFieldsOf (tick (tick tamperedC6).state).state.current =
      immutableFieldsOf tamperedC6.accepted ∧
    (tick tamperedC6).state.accepted = tamperedC6.accepted ∧
    (tick (tick tamperedC6).state).state.accepted = tamperedC6.accepted ∧
    (tick tamperedC6).transition ≠ some ("UpToDate", true) :=
  C6_immutable_revert tamperedC6 (by decide)
